import Mathlib

namespace DocMcp

/-!
# Verification of the doc-mcp ingestion core

Shallow embedding of the two-stage ingestion pipeline of the `doc-mcp`
repository, translated from the Python sources:

- `src/github/parser.py`   — repository-identifier parsing and URL building;
- `src/github/file_loader.py` — stage-1 fetch and document assembly;
- `src/core/types.py`      — data model (`ProcessingStatus`, `ProgressState`, ...);
- `src/ui/components/common.py` — progress rendering (`format_progress_display`);
- `src/ui/tabs/ingestion.py`    — the two-step pipeline orchestration.

Python strings are modelled as Lean `String`, Python ints as `Int`, Python
numbers that flow through `time.time()` / division as exact fractions
(`PyNum`, or `ℚ` where only comparisons occur — the claims under study
concern exact zero and accounting, never float rounding), raising code as
`Except`, and the loosely-typed progress dictionaries as a structure of
`Option`-typed fields (`none` = key absent).  The GitHub network client
(`src/github/client.py`) is not part of the provided sources; where a claim
depends on it, it is modelled from the specification and marked as such.
-/

/-! ## Python string primitives

All string operations are implemented by structural recursion on the
character list so that every definition evaluates inside the kernel
(`decide` / `rfl` on concrete inputs). -/

/-- Python `str.strip()` (whitespace at both ends). -/
def pyStrip (s : String) : String :=
  String.mk (((s.data.dropWhile Char.isWhitespace).reverse.dropWhile Char.isWhitespace).reverse)

/-- Python `str.rstrip("/")`: remove trailing slash characters. -/
def rstripSlashes (s : String) : String :=
  String.mk (s.data.reverse.dropWhile (fun c => c == '/')).reverse

/-- Python `str.strip("/")`: remove slash characters at both ends. -/
def stripSlashes (s : String) : String :=
  String.mk (((s.data.dropWhile (fun c => c == '/')).reverse.dropWhile (fun c => c == '/')).reverse)

/-- Tests whether `needle` is a prefix of the second list. -/
def charsPrefixOf : List Char → List Char → Bool
  | [], _ => true
  | _ :: _, [] => false
  | a :: as, b :: bs => a == b && charsPrefixOf as bs

/-- Tests whether `needle` occurs as a contiguous infix of the list. -/
def charsInfixOf (needle : List Char) : List Char → Bool
  | [] => charsPrefixOf needle []
  | b :: bs => charsPrefixOf needle (b :: bs) || charsInfixOf needle bs

/-- Python `needle in hay` on strings (substring containment). -/
def pyContains (hay needle : String) : Bool := charsInfixOf needle.data hay.data

/-- Python `str.startswith(pre)`. -/
def strStartsWith (s pre : String) : Bool := charsPrefixOf pre.data s.data

/-- Worker for `pySplitChar`: accumulates the current segment (reversed). -/
def splitCharAux (c : Char) : List Char → List Char → List String
  | [], acc => [String.mk acc.reverse]
  | x :: xs, acc =>
    if x == c then String.mk acc.reverse :: splitCharAux c xs []
    else splitCharAux c xs (x :: acc)

/-- Python `str.split(c)` for a single-character separator
(`"".split(c) = [""]`, empty segments preserved). -/
def pySplitChar (c : Char) (s : String) : List String := splitCharAux c s.data []

/-- Python `sep.join(parts)`. -/
def joinWith (sep : String) (parts : List String) : String :=
  String.mk (List.intercalate sep.data (parts.map String.data))

/-- Split a character list at the first occurrence of `c`; `none` if absent. -/
def splitAtFirst (c : Char) : List Char → Option (List Char × List Char)
  | [] => none
  | x :: xs =>
    if x == c then some ([], xs)
    else
      match splitAtFirst c xs with
      | some (pre, post) => some (x :: pre, post)
      | none => none

/-! ## `urllib.parse.urlparse` (path component)

Model of CPython `urlsplit` restricted to what `parse_github_url` consumes:
the `path` attribute.  Scheme detection (`letter` then letters, digits,
`+-.`, up to the first `:`), a `//`-introduced netloc ending at the first of
`/?#`, then fragment and query removal.  (`;params` splitting never applies
to the inputs handled here and is not modelled.) -/

/-- Characters allowed in a URL scheme after the leading letter. -/
def schemeChar (c : Char) : Bool := c.isAlphanum || c == '+' || c == '-' || c == '.'

/-- Strip a syntactically valid `scheme:` head, as CPython `urlsplit` does. -/
def dropScheme (cs : List Char) : List Char :=
  match splitAtFirst ':' cs with
  | some (pre, post) =>
    match pre with
    | [] => cs
    | c :: _ => if c.isAlpha && pre.all schemeChar then post else cs
  | none => cs

/-- Strip a `//netloc` head (netloc ends at the first `/`, `?` or `#`). -/
def dropNetloc : List Char → List Char
  | '/' :: '/' :: rest => rest.dropWhile (fun c => c != '/' && c != '?' && c != '#')
  | cs => cs

/-- CPython `urlparse(url).path`. -/
def urlparsePath (url : String) : String :=
  let cs := dropNetloc (dropScheme url.data)
  let cs := cs.takeWhile (fun c => c != '#')
  let cs := cs.takeWhile (fun c => c != '?')
  String.mk cs

/-! ## `src/github/parser.py` -/

/-- The `GitHubError` exception raised by the parser and the loader. -/
structure GitHubError where
  message : String
deriving Repr, DecidableEq

/-- Embeds `parse_github_url` from `src/github/parser.py`: strip whitespace and
trailing slashes, prepend `https://github.com/` unless the string already
starts with `https://github.com` or `github.com`, then take the URL path and
require exactly two `/`-separated parts. -/
def parse_github_url (url : String) : Except GitHubError (String × String) :=
  if pyStrip url == "" then .error ⟨"Empty URL provided"⟩
  else
    let url := rstripSlashes (pyStrip url)
    let url :=
      if strStartsWith url "https://github.com" || strStartsWith url "github.com" then url
      else "https://github.com/" ++ url
    let path_parts := pySplitChar '/' (stripSlashes (urlparsePath url))
    match path_parts with
    | [owner, repo] => .ok (owner, repo)
    | _ => .error ⟨"Invalid GitHub URL format: " ++ url⟩

/-- Embeds `build_github_web_url` from `src/github/parser.py`. -/
def build_github_web_url (owner repo path branch : String) : String :=
  let base_url := "https://github.com/" ++ owner ++ "/" ++ repo
  if path ≠ "" then base_url ++ "/blob/" ++ branch ++ "/" ++ path
  else base_url ++ "/tree/" ++ branch

/-! ## `src/core/types.py` (data model) -/

/-- The `ProcessingStatus` enum from `src/core/types.py`. -/
inductive ProcessingStatus
  | pending
  | loading
  | loaded
  | vectorizing
  | complete
  | error
deriving Repr, DecidableEq

/-- The `.value` of each `ProcessingStatus` member (a Python `str` enum). -/
def ProcessingStatus.value : ProcessingStatus → String
  | .pending => "pending"
  | .loading => "loading"
  | .loaded => "loaded"
  | .vectorizing => "vectorizing"
  | .complete => "complete"
  | .error => "error"

/-- The `GitHubFileInfo` model from `src/core/types.py`. -/
structure GitHubFileInfo where
  path : String
  name : String
  sha : String
  size : Int
  url : String
  download_url : String
  type : String
  encoding : String
  content : String
deriving Repr, DecidableEq

/-- The `DocumentMetadata` model from `src/core/types.py`. -/
structure DocumentMetadata where
  file_path : String
  file_name : String
  file_extension : String
  directory : String
  repo : String
  branch : String
  sha : String
  size : Int
  url : String
  raw_url : String
  type : String
deriving Repr, DecidableEq

/-- A LlamaIndex `Document` as built by the loader: text, stable id, metadata. -/
structure Document where
  text : String
  doc_id : String
  metadata : DocumentMetadata
deriving Repr, DecidableEq

/-! ## `src/github/file_loader.py` -/

/-- Embeds `create_document_from_file_info`: assemble a `Document`; the web URL is
derived from the repository name, falling back to `file_info.url` when
`parse_github_url` raises. -/
def create_document_from_file_info (file_info : GitHubFileInfo) (repo_name branch : String) :
    Document :=
  let web_url :=
    match parse_github_url repo_name with
    | .ok (owner, repo) => build_github_web_url owner repo file_info.path branch
    | .error _ => file_info.url
  let metadata : DocumentMetadata :=
    { file_path := file_info.path
      file_name := file_info.name
      file_extension :=
        if pyContains file_info.path "." then ((pySplitChar '.' file_info.path).getLastD "")
        else ""
      directory :=
        if pyContains file_info.path "/" then
          joinWith "/" ((pySplitChar '/' file_info.path).dropLast)
        else ""
      repo := repo_name
      branch := branch
      sha := file_info.sha
      size := file_info.size
      url := web_url
      raw_url := file_info.download_url
      type := file_info.type }
  { text := file_info.content
    doc_id := repo_name ++ ":" ++ branch ++ ":" ++ file_info.path
    metadata := metadata }

/-- Modelled from the spec: `github_client.get_multiple_files`
(`src/github/client.py` is not among the provided sources).  Per the spec,
each requested path is retrieved independently — the per-path transport is
the oracle `fetchFile` — the result is content-addressed by path, a failed
retrieval records the path in the failed list instead of aborting the batch,
and every path is accounted for in exactly one of the two components. -/
def get_multiple_files (fetchFile : String → Option GitHubFileInfo)
    (file_paths : List String) : List GitHubFileInfo × List String :=
  (file_paths.filterMap (fun p => (fetchFile p).map (fun fi => { fi with path := p })),
   file_paths.filter (fun p => (fetchFile p).isNone))

/-- The document-conversion loop of `load_files_from_github` (lines 88–95):
each fetched file either becomes a `Document` or — when assembly raises,
which the oracle `assembleRaises` decides, standing for the runtime's
nondeterminism — has its path appended to the failed list. -/
def convert_documents (assembleRaises : GitHubFileInfo → Bool) (repo_name branch : String) :
    List GitHubFileInfo → List Document → List String → List Document × List String
  | [], documents, failed_paths => (documents, failed_paths)
  | fi :: rest, documents, failed_paths =>
    if assembleRaises fi then
      convert_documents assembleRaises repo_name branch rest documents (failed_paths ++ [fi.path])
    else
      convert_documents assembleRaises repo_name branch rest
        (documents ++ [create_document_from_file_info fi repo_name branch]) failed_paths

/-- Embeds `load_files_from_github`: empty input short-circuits to `([], [])`;
an unparseable repository identifier raises `GitHubError` before the client
is consulted; otherwise the fetched files are converted to documents with
per-file failure isolation. -/
def load_files_from_github (fetchFile : String → Option GitHubFileInfo)
    (assembleRaises : GitHubFileInfo → Bool) (repo_url : String) (file_paths : List String)
    (branch : String) (max_concurrent : Nat) :
    Except GitHubError (List Document × List String) :=
  if file_paths.isEmpty then .ok ([], [])
  else
    match parse_github_url repo_url with
    | .error e => .error ⟨"Invalid repository URL: " ++ e.message⟩
    | .ok (owner, repo) =>
      let repo_name := owner ++ "/" ++ repo
      let fetched := get_multiple_files fetchFile file_paths
      .ok (convert_documents assembleRaises repo_name branch fetched.1 [] fetched.2)

/-! ## Helper predicates and lemmas about the loader -/

/-- Returns `true` when the transport fails to retrieve path `p`. -/
def fetchFails (fetchFile : String → Option GitHubFileInfo) (p : String) : Bool :=
  (fetchFile p).isNone

/-- Returns `true` when path `p` is fetched but its document assembly raises. -/
def asmFails (fetchFile : String → Option GitHubFileInfo)
    (assembleRaises : GitHubFileInfo → Bool) (p : String) : Bool :=
  match fetchFile p with
  | some d => assembleRaises { d with path := p }
  | none => false

/-- Returns `true` when path `p` is fetched and assembled into a document. -/
def asmSucceeds (fetchFile : String → Option GitHubFileInfo)
    (assembleRaises : GitHubFileInfo → Bool) (p : String) : Bool :=
  match fetchFile p with
  | some d => !assembleRaises { d with path := p }
  | none => false

/-- Boolean disjointness of two string lists. -/
def listDisjoint (xs ys : List String) : Bool :=
  xs.all (fun x => ys.all (fun y => x != y))

/-- Returns `true` on `Except.ok`, i.e. the modelled Python call returned normally. -/
def isOkE {ε α : Type} : Except ε α → Bool
  | .ok _ => true
  | .error _ => false

/-- Value of an `Except`, with a default for the error case. -/
def exceptGetD {ε α : Type} (e : Except ε α) (d : α) : α :=
  match e with
  | .ok a => a
  | .error _ => d

def wFetchData : GitHubFileInfo :=
  { path := "", name := "f.md", sha := "sha1", size := 3,
    url := "https://api.github.com/f", download_url := "https://raw.example/f",
    type := "file", encoding := "base64", content := "# hi" }

def wFetch : String → Option GitHubFileInfo :=
  fun p => if p == "b.md" then none else some wFetchData

def wRaises : GitHubFileInfo → Bool := fun fi => fi.path == "c.md"

def wPaths : List String := ["a.md", "b.md", "c.md"]

def wDocs : List Document :=
  [create_document_from_file_info { wFetchData with path := "a.md" } "owner/repo" "main"]

def wFailed : List String := ["b.md", "c.md"]

def wFallbackInfo : GitHubFileInfo :=
  { path := "docs/a.md", name := "a.md", sha := "abc", size := 5,
    url := "https://api.github.com/repos/o/x/contents/docs/a.md",
    download_url := "https://raw.example/o/x/docs/a.md",
    type := "file", encoding := "base64", content := "hello" }

/-! ## Python numbers

The numbers that reach the progress display are ints and `time.time()`
differences; the claims about them concern exact zero and clamping, never
IEEE rounding, so they are modelled as exact fractions.  `PyNum` is an
unnormalized fraction (kernel-reducible: no gcd), with the invariant that
every constructor used by the model keeps the denominator positive. -/

structure PyNum where
  num : Int
  den : Int
deriving Repr, DecidableEq

/-- Embed an int. -/
def PyNum.ofInt (n : Int) : PyNum := ⟨n, 1⟩

def PyNum.add (a b : PyNum) : PyNum := ⟨a.num * b.den + b.num * a.den, a.den * b.den⟩

def PyNum.mul (a b : PyNum) : PyNum := ⟨a.num * b.num, a.den * b.den⟩

/-- Exact division; callers guard against a zero divisor (Python raises
`ZeroDivisionError` there).  Keeps the denominator positive. -/
def PyNum.div (a b : PyNum) : PyNum :=
  if b.num < 0 then ⟨-(a.num * b.den), a.den * (-b.num)⟩ else ⟨a.num * b.den, a.den * b.num⟩

/-- Python `x == 0` (denominator positive by construction). -/
def PyNum.isZero (a : PyNum) : Bool := a.num == 0

def PyNum.isNeg (a : PyNum) : Bool := a.num < 0

def PyNum.neg (a : PyNum) : PyNum := ⟨-a.num, a.den⟩

/-- Mathematical floor (denominator positive by construction). -/
def PyNum.floor (a : PyNum) : Int := a.num.fdiv a.den

/-- Python `int(x)`: truncation toward zero. -/
def PyNum.trunc (a : PyNum) : Int := a.num.tdiv a.den

/-- Python `a <= b` (denominators positive by construction). -/
def PyNum.le (a b : PyNum) : Bool := a.num * b.den ≤ b.num * a.den

/-- Python `"s" * n` for an int `n` (empty for `n <= 0`). -/
def pyRepeat (s : String) (n : Int) : String :=
  String.mk (List.flatten (List.replicate n.toNat s.data))

/-- Python `f"{q:.1f}"` for a nonnegative value: one decimal digit.
(Ties round up here; CPython rounds the binary double to even — the two
agree on every value whose decimal expansion is exact at one digit, which
covers all values the claims evaluate.) -/
def pyFormat1fAux (q : PyNum) : String :=
  let n : Int := ((q.mul (PyNum.ofInt 10)).add ⟨1, 2⟩).floor
  toString (n.tdiv 10) ++ "." ++ toString (n.tmod 10).natAbs

/-- Python `f"{q:.1f}"`. -/
def pyFormat1f (q : PyNum) : String :=
  if q.isNeg then "-" ++ pyFormat1fAux q.neg else pyFormat1fAux q

/-- Group digits of a reversed digit list in threes with `,`. -/
def commaGroup : List Char → List Char
  | a :: b :: c :: d :: rest => a :: b :: c :: ',' :: commaGroup (d :: rest)
  | l => l

/-- Python `f"{n:,}"`: thousands separators. -/
def pyCommaFormat (n : Int) : String :=
  let s := toString n.natAbs
  let grouped := String.mk (commaGroup s.data.reverse).reverse
  if n < 0 then "-" ++ grouped else grouped

/-! ## The progress dictionary

`src/ui/tabs/ingestion.py` passes loosely-typed dicts between the pipeline
steps and `format_progress_display`; a missing key is `none`.  The
`failed_files` key holds a list in some phases and an int in others — the
source reads it back with `isinstance` checks — so its value type is a
tagged union. -/

inductive FailedFilesVal
  | list : List String → FailedFilesVal
  | count : Int → FailedFilesVal
deriving Repr, DecidableEq

structure ProgressDict where
  status : Option String := none
  message : Option String := none
  progress : Option PyNum := none
  phase : Option String := none
  details : Option String := none
  step : Option String := none
  total_files : Option Int := none
  processed_files : Option Int := none
  successful_files : Option Int := none
  failed_files : Option FailedFilesVal := none
  current_batch : Option Int := none
  total_batches : Option Int := none
  documents_count : Option Int := none
  repo_name : Option String := none
  error : Option String := none
  total_time : Option PyNum := none
  loading_time : Option PyNum := none
  vector_time : Option PyNum := none
  documents_processed : Option Int := none
  loaded_documents : Option (List Document) := none
  failed_files_count : Option Int := none
  repository_updated : Option Bool := none
deriving Repr, DecidableEq

/-- The empty dict `{}` (every key absent). -/
def emptyProgress : ProgressDict := {}

/-! ## `format_progress_display` (`src/ui/components/common.py`)

The renderer is modelled as the list of the strings the source appends to
`output` (one list element per `+=`), inside `Except`, because the Python
function can raise (see the `complete` branch); the displayed text is the
concatenation. -/

/-- The `status_emoji` mapping with its `"🔄"` default. -/
def statusEmoji (status : String) : String :=
  if status = "loading" then "⏳"
  else if status = "loaded" then "✅"
  else if status = "vectorizing" then "🧠"
  else if status = "complete" then "🎉"
  else if status = "error" then "❌"
  else "🔄"

/-- Python `str(...)` of a `failed_files` value (list repr or int). -/
def pyStrFailedFiles : FailedFilesVal → String
  | .list l => "[" ++ joinWith ", " (l.map (fun s => "\x27" ++ s ++ "\x27")) ++ "]"
  | .count n => toString n

/-- The fixed message rendered for an empty snapshot. -/
def readyMessage : String :=
  "🚀 Ready to start ingestion...\n\n📋 **Two-Step Process:**\n1️⃣ Load files from GitHub repository\n2️⃣ Generate embeddings and store in vector database"

/-- The 40-character separator line. -/
def hrLine : String := pyRepeat "━" 40 ++ "\n"

/-- Lines 100–158 of `common.py`: header, progress bar, per-step details and
the details block — everything before the terminal-state summaries. -/
def baseSegments (d : ProgressDict) : List String :=
  let status := d.status.getD "unknown"
  let message := d.message.getD ""
  let progress := d.progress.getD (PyNum.ofInt 0)
  let phase := d.phase.getD ""
  let details := d.details.getD ""
  let filled := (progress.div ⟨5, 2⟩).trunc
  let progress_bar := pyRepeat "█" filled ++ pyRepeat "░" (40 - filled)
  let emoji := statusEmoji status
  let pct := pyFormat1f progress
  let head := [emoji ++ " **" ++ message ++ "**\n\n",
    "📊 **Current Phase:** " ++ phase ++ "\n",
    "📈 **Progress:** " ++ pct ++ "%\n",
    "[" ++ progress_bar ++ "] " ++ pct ++ "%\n\n"]
  let stepSegs :=
    if d.step = some "file_loading" then
      let processed := d.processed_files.getD 0
      let total := d.total_files.getD 0
      let successful := d.successful_files.getD 0
      let failed := d.failed_files.getD (.count 0)
      if total > 0 then
        ["📁 **File Processing Status:**\n",
         "   • Total files: " ++ toString total ++ "\n",
         "   • Processed: " ++ toString processed ++ "/" ++ toString total ++ "\n",
         "   • ✅ Successful: " ++ toString successful ++ "\n",
         "   • ❌ Failed: " ++ pyStrFailedFiles failed ++ "\n"] ++
        (if d.current_batch.isSome && d.total_batches.isSome then
          ["   • 📦 Current batch: " ++ toString (d.current_batch.getD 0) ++ "/" ++
            toString (d.total_batches.getD 0) ++ "\n"]
         else []) ++ ["\n"]
      else []
    else if d.step = some "vector_ingestion" then
      let docs_count := d.documents_count.getD 0
      let repo_name := d.repo_name.getD "Unknown"
      if docs_count > 0 then
        ["🧠 **Vector Processing Status:**\n",
         "   • Repository: " ++ repo_name ++ "\n",
         "   • Documents: " ++ pyCommaFormat docs_count ++ "\n",
         "   • Stage: " ++ phase ++ "\n\n"]
      else []
    else []
  head ++ stepSegs ++ ["📝 **Details:**\n" ++ details ++ "\n"]

/-- Lines 161–180 of `common.py`: the `complete` summary.  The processing
rate `documents_processed / total_time` is NOT guarded: when the elapsed
total is zero, Python raises `ZeroDivisionError`. -/
def completeTail (d : ProgressDict) : Except String (List String) :=
  let total_time := d.total_time.getD (PyNum.ofInt 0)
  let docs_processed := d.documents_processed.getD 0
  let failed_files := d.failed_files.getD (.count 0)
  let vector_time := d.vector_time.getD (PyNum.ofInt 0)
  let loading_time := d.loading_time.getD (PyNum.ofInt 0)
  let repo_name := d.repo_name.getD "Unknown"
  let failedCount : Int := match failed_files with | .list l => l.length | .count n => n
  if total_time.isZero then .error "ZeroDivisionError: division by zero"
  else
    let rate := (PyNum.ofInt docs_processed).div total_time
    .ok ["\n🎊 **INGESTION COMPLETED SUCCESSFULLY!**\n",
      hrLine,
      "🎯 **Repository:** " ++ repo_name ++ "\n",
      "📄 **Documents processed:** " ++ pyCommaFormat docs_processed ++ "\n",
      "❌ **Failed files:** " ++ toString failedCount ++ "\n",
      "⏱️ **Total time:** " ++ pyFormat1f total_time ++ " seconds\n",
      "   ├─ File loading: " ++ pyFormat1f loading_time ++ "s\n",
      "   └─ Vector processing: " ++ pyFormat1f vector_time ++ "s\n",
      "📊 **Processing rate:** " ++ pyFormat1f rate ++ " docs/second\n\n",
      "🚀 **Next Step:** Go to the \x27Query Interface\x27 tab to start asking questions!"]

/-- Lines 182–193 of `common.py`: the `error` summary with the 300-character
truncation and fixed troubleshooting hints. -/
def errorTail (d : ProgressDict) : List String :=
  let error := d.error.getD "Unknown error"
  ["\n💥 **ERROR OCCURRED**\n",
   hrLine,
   "❌ **Error Details:** " ++ String.mk (error.data.take 300) ++
     (if error.data.length > 300 then "..." else "") ++ "\n",
   "\n🔧 **Troubleshooting Tips:**\n",
   "   • Check your GitHub token permissions\n",
   "   • Verify repository URL format\n",
   "   • Ensure selected files exist\n",
   "   • Check network connectivity\n"]

/-- The renderer `format_progress_display`, as the list of appended segments. -/
def formatSegments (d : ProgressDict) : Except String (List String) :=
  if d = emptyProgress then .ok [readyMessage]
  else
    let status := d.status.getD "unknown"
    let base := baseSegments d
    if status = "complete" then
      match completeTail d with
      | .ok tail => .ok (base ++ tail)
      | .error e => .error e
    else if status = "error" then .ok (base ++ errorTail d)
    else .ok base

/-- The rendered text of `format_progress_display` (concatenated segments). -/
def format_progress_display (d : ProgressDict) : Except String String :=
  (formatSegments d).map String.join

/-! ## `ProgressState` (`src/core/types.py`)

The pydantic snapshot model.  (The `timestamp: datetime` field is real-time
data outside the embedding and is omitted; no claim concerns it.)  Pydantic
`Field(ge=0, le=100)` REJECTS an out-of-range `progress` with a validation
error — it does not clamp — which `validate` models by returning `none`. -/

structure ProgressState where
  status : ProcessingStatus
  message : String
  progress : ℚ
  phase : String := ""
  details : String := ""
  step : String := ""
  total_files : Int := 0
  processed_files : Int := 0
  successful_files : Int := 0
  failed_files : Int := 0
  error : Option String := none
  repository_updated : Bool := false
deriving DecidableEq

/-- Pydantic construction of a `ProgressState`: validation of the
`progress: float = Field(ge=0, le=100)` constraint. -/
def ProgressState.validate (status : ProcessingStatus) (message : String) (progress : ℚ) :
    Option ProgressState :=
  if 0 ≤ progress ∧ progress ≤ 100 then
    some { status := status, message := message, progress := progress }
  else none

def overPct : ProgressDict :=
  { status := some "loading", message := some "Working", progress := some (PyNum.ofInt 150) }

def wPS : ProgressState := { status := .loading, message := "m", progress := 50 }

def wNotComplete : ProgressDict :=
  { status := some "loading", message := some "m", progress := some (PyNum.ofInt 50) }

def completeZeroTime : ProgressDict :=
  { status := some "complete", message := some "done",
    progress := some (PyNum.ofInt 100), total_time := some (PyNum.ofInt 0) }

/-! ## `src/ui/tabs/ingestion.py` — the two pipeline steps

`_start_file_loading_generator` is an async generator yielding
`(progress_dict, display_text, step2_button)` triples; the model returns the
list of yielded `(progress_dict, step2_button_interactive)` pairs — the
display component is `format_progress_display` applied to the dict and is
not duplicated here.  The already-elapsed wall-clock readings and the result
of the awaited `load_files_from_github` call are parameters. -/

/-- Drop `pat` from the front of a list, if it is a prefix. -/
def stripPrefixChars : List Char → List Char → Option (List Char)
  | [], cs => some cs
  | _ :: _, [] => none
  | p :: ps, c :: cs => if p == c then stripPrefixChars ps cs else none

/-- Fuel-driven worker for `pyReplace` (fuel = input length). -/
def replaceAux (pat repl : List Char) : Nat → List Char → List Char
  | _, [] => []
  | 0, cs => cs
  | fuel + 1, x :: xs =>
    match stripPrefixChars pat (x :: xs) with
    | some rest =>
      if pat.isEmpty then x :: replaceAux pat repl fuel xs
      else repl ++ replaceAux pat repl fuel rest
    | none => x :: replaceAux pat repl fuel xs

/-- Python `s.replace(pat, repl)`: all non-overlapping occurrences, left to
right. -/
def pyReplace (s pat repl : String) : String :=
  String.mk (replaceAux pat.data repl.data s.data.length s.data)

/-- The repository-name derivation at the top of
`_start_file_loading_generator` (ingestion.py lines 217–238): when the URL
mentions `github.com`, strip the prefix forms and trailing slashes and
require a remaining `/`; `none` models the early error yield.  Otherwise the
input is used as-is (stripped). -/
def parse_repo_name (repo_url : String) : Option String :=
  if pyContains repo_url "github.com" then
    let repo_name := stripSlashes
      (pyReplace (pyReplace repo_url "https://github.com/" "") "http://github.com/" "")
    if pyContains repo_name "/" then some repo_name else none
  else some (pyStrip repo_url)

/-- The stage-1 completion snapshot (ingestion.py lines 271–285): status
`loaded`, carrying the produced documents and the failed-path list. -/
def completionProgress (repo_name : String) (total_files : Int)
    (documents : List Document) (failed_files : List String)
    (loading_time : PyNum) : ProgressDict :=
  let nd : Int := documents.length
  let nf : Int := failed_files.length
  { status := some (ProcessingStatus.loaded.value),
    message := some ("✅ File Loading Complete! Loaded " ++ toString nd ++ " documents"),
    progress := some (PyNum.ofInt 100),
    phase := some "Files Loaded Successfully",
    details := some (if nd + nf > 0 then
        "🎯 Final Results:\n✅ Successfully loaded: " ++ toString nd ++
          " documents\n❌ Failed files: " ++ toString nf ++
          "\n⏱️ Total time: " ++ pyFormat1f loading_time ++
          "s\n📊 Success rate: " ++
          pyFormat1f (((PyNum.ofInt nd).div (PyNum.ofInt (nd + nf))).mul (PyNum.ofInt 100)) ++
          "%"
      else "100%"),
    step := some "file_loading_complete",
    loaded_documents := some documents,
    failed_files := some (.list failed_files),
    loading_time := some loading_time,
    repo_name := some repo_name,
    total_files := some total_files,
    processed_files := some total_files,
    successful_files := some nd }

/-- Embeds `_start_file_loading_generator`: the yielded `(dict, step2-enabled)`
pairs.  `loadResult` is the outcome of the awaited `load_files_from_github`
call (`.error` = the call raised), `elapsed` the measured loading time. -/
def start_file_loading_generator (repo_url : String) (selected_files : List String)
    (current_progress : ProgressDict)
    (loadResult : Except GitHubError (List Document × List String))
    (elapsed : PyNum) : List (ProgressDict × Bool) :=
  if selected_files.isEmpty then
    [({ status := some (ProcessingStatus.error.value),
        message := some "❌ No files selected for loading",
        progress := some (PyNum.ofInt 0),
        details := some "Please select at least one file to proceed.",
        step := some "file_loading" }, false)]
  else
    match parse_repo_name repo_url with
    | none =>
      [({ status := some (ProcessingStatus.error.value),
          message := some "❌ Invalid repository URL format",
          progress := some (PyNum.ofInt 0),
          details := some "Expected format: owner/repo or https://github.com/owner/repo",
          step := some "file_loading" }, false)]
    | some repo_name =>
      let total_files : Int := selected_files.length
      let initial : ProgressDict :=
        { status := some (ProcessingStatus.loading.value),
          message := some ("🚀 Starting file loading from " ++ repo_name),
          progress := some (PyNum.ofInt 0),
          total_files := some total_files,
          processed_files := some 0,
          successful_files := some 0,
          failed_files := some (.count 0),
          phase := some "File Loading",
          details := some ("Preparing to load " ++ toString total_files ++ " files..."),
          step := some "file_loading",
          repo_name := some repo_name }
      match loadResult with
      | .ok (documents, failed_files) =>
        [(initial, false),
         (completionProgress repo_name total_files documents failed_files elapsed, true)]
      | .error e =>
        [(initial, false),
         ({ status := some (ProcessingStatus.error.value),
            message := some ("❌ File loading error after " ++ pyFormat1f elapsed ++ "s"),
            progress := some (PyNum.ofInt 0),
            phase := some "Loading Failed",
            details := some ("Critical error during file loading:\n" ++ e.message),
            error := some e.message,
            step := some "file_loading" }, false)]

/-- Embeds `_start_vector_ingestion` (ingestion.py lines 311–400): returns the
`(new_progress, display_text)` pair.  `ingestResult` is the outcome of the
awaited `ingest_documents_async` collaborator call (`.error` = it raised,
`.ok b` = it returned `b`), `vector_time` the measured embedding time.  The
outer `Except` models an uncaught exception of the function itself (the
guard branches and the except-branch build the display by rendering dicts,
which can in principle raise — see `format_progress_display`). -/
def start_vector_ingestion (current_progress : ProgressDict)
    (ingestResult : Except String Bool) (vector_time : PyNum) :
    Except String (ProgressDict × String) :=
  if current_progress.step ≠ some "file_loading_complete" then
    let errd : ProgressDict :=
      { status := some (ProcessingStatus.error.value),
        message := some "❌ No documents to process",
        progress := some (PyNum.ofInt 0),
        details := some "Please load files first." }
    (format_progress_display errd).map (fun disp => (errd, disp))
  else
    let documents := current_progress.loaded_documents.getD []
    let repo_name := current_progress.repo_name.getD ""
    if documents.isEmpty then
      let errd : ProgressDict :=
        { status := some (ProcessingStatus.error.value),
          message := some "❌ No documents available",
          progress := some (PyNum.ofInt 0),
          details := some "No documents found to process." }
      (format_progress_display errd).map (fun disp => (errd, disp))
    else
      match ingestResult with
      | .ok success =>
        let loading_time := current_progress.loading_time.getD (PyNum.ofInt 0)
        let total_time := loading_time.add vector_time
        if success then
          let failed_files_data := current_progress.failed_files.getD (.list [])
          let failed_files_count : Int :=
            match failed_files_data with
            | .list l => l.length
            | .count n => n
          let nd : Int := documents.length
          let completed : ProgressDict :=
            { status := some (ProcessingStatus.complete.value),
              message := some "🎉 Complete Processing Pipeline Finished!",
              progress := some (PyNum.ofInt 100),
              phase := some "Complete",
              details := some ("Successfully processed " ++ toString nd ++
                " documents for " ++ repo_name),
              step := some "complete",
              total_time := some total_time,
              documents_processed := some nd,
              failed_files_count := some failed_files_count,
              failed_files := some failed_files_data,
              vector_time := some vector_time,
              loading_time := some loading_time,
              repo_name := some repo_name,
              repository_updated := some true }
          (format_progress_display completed).map (fun disp => (completed, disp))
        else
          let errd : ProgressDict :=
            { status := some (ProcessingStatus.error.value),
              message := some "❌ Vector ingestion failed",
              progress := some (PyNum.ofInt 0),
              details := some "Document ingestion failed" }
          (format_progress_display errd).map (fun disp => (errd, disp))
      | .error e =>
        let failed_files_data := current_progress.failed_files.getD (.list [])
        let failed_files_count : Int :=
          match failed_files_data with
          | .list l => l.length
          | .count n => n
        let errd : ProgressDict :=
          { status := some (ProcessingStatus.error.value),
            message := some "❌ Vector Store Ingestion Failed",
            progress := some (PyNum.ofInt 0),
            phase := some "Failed",
            details := some ("Error: " ++ e),
            error := some e,
            step := some "vector_ingestion",
            failed_files_count := some failed_files_count,
            failed_files := some failed_files_data }
        (format_progress_display errd).map (fun disp => (errd, disp))

/-! ## Bounded concurrency of the fetcher (C5)

`github_client.get_multiple_files` (`src/github/client.py`, not among the
provided sources) dispatches one retrieval task per path and bounds them
with a semaphore of `max_concurrent` permits.  Modelled from the spec
("at most maxConcurrent in-flight network requests at any time; remaining
requests queue until a slot frees") as a transition system over task
counts: a queued task may start only while fewer than `maxConcurrent`
retrievals are in flight, and a retrieval finishing frees its slot. -/

/-- Counts of the retrieval tasks of one `fetchMany` call: not yet
dispatched, currently in flight, and finished (either way). -/
structure FetcherState where
  waiting : Nat
  inFlight : Nat
  done : Nat
deriving Repr, DecidableEq

/-- Modelled from the spec: one scheduling step of the semaphore-bounded
fetcher.  `start` acquires a permit (only when a permit is free), `finish`
releases one. -/
inductive FetchStep (maxConcurrent : Nat) : FetcherState -> FetcherState -> Prop
  | start (w r d : Nat) : r < maxConcurrent ->
      FetchStep maxConcurrent ⟨w + 1, r, d⟩ ⟨w, r + 1, d⟩
  | finish (w r d : Nat) :
      FetchStep maxConcurrent ⟨w, r + 1, d⟩ ⟨w, r, d + 1⟩

/-- States reachable from `init` by semaphore-bounded scheduling. -/
inductive FetchReachable (maxConcurrent : Nat) (init : FetcherState) :
    FetcherState -> Prop
  | refl : FetchReachable maxConcurrent init init
  | step {s t : FetcherState} : FetchReachable maxConcurrent init s ->
      FetchStep maxConcurrent s t -> FetchReachable maxConcurrent init t

/-- The state at the start of a `fetchMany` call over `numPaths` paths. -/
def initialFetcherState (numPaths : Nat) : FetcherState := ⟨numPaths, 0, 0⟩

/-! ## Theorems -/

theorem listDisjoint_iff (xs ys : List String) :
    listDisjoint xs ys = true ↔ ∀ x ∈ xs, ∀ y ∈ ys, x ≠ y := by
  simp [listDisjoint, List.all_eq_true, bne_iff_ne]

theorem loader_convert_eq (a : GitHubFileInfo → Bool) (rn b : String) :
    ∀ (infos : List GitHubFileInfo) (docs : List Document) (failed : List String),
      convert_documents a rn b infos docs failed =
        (docs ++ (infos.filter (fun fi => !a fi)).map
            (fun fi => create_document_from_file_info fi rn b),
         failed ++ (infos.filter (fun fi => a fi)).map (fun fi => fi.path))
  | [], docs, failed => by simp [convert_documents]
  | fi :: rest, docs, failed => by
    cases h : a fi <;>
      simp [convert_documents, h, loader_convert_eq a rn b rest, List.filter_cons]

theorem loader_succ_paths (f : String → Option GitHubFileInfo) (a : GitHubFileInfo → Bool) :
    ∀ paths : List String,
      (((paths.filterMap
            (fun p => (f p).map (fun fi => ({ fi with path := p } : GitHubFileInfo)))).filter
          (fun fi => !a fi)).map (fun fi => fi.path)) = paths.filter (asmSucceeds f a)
  | [] => rfl
  | p :: rest => by
    cases hf : f p with
    | none =>
      simp [List.filterMap_cons, List.filter_cons, hf, asmSucceeds,
        loader_succ_paths f a rest]
    | some d =>
      cases ha : a { d with path := p } <;>
        simp [List.filterMap_cons, List.filter_cons, hf, ha, asmSucceeds,
          loader_succ_paths f a rest]

theorem loader_fail_paths (f : String → Option GitHubFileInfo) (a : GitHubFileInfo → Bool) :
    ∀ paths : List String,
      (((paths.filterMap
            (fun p => (f p).map (fun fi => ({ fi with path := p } : GitHubFileInfo)))).filter
          (fun fi => a fi)).map (fun fi => fi.path)) = paths.filter (asmFails f a)
  | [] => rfl
  | p :: rest => by
    cases hf : f p with
    | none =>
      simp [List.filterMap_cons, List.filter_cons, hf, asmFails,
        loader_fail_paths f a rest]
    | some d =>
      cases ha : a { d with path := p } <;>
        simp [List.filterMap_cons, List.filter_cons, hf, ha, asmFails,
          loader_fail_paths f a rest]

theorem loader_three_way_count (f : String → Option GitHubFileInfo) (a : GitHubFileInfo → Bool) :
    ∀ paths : List String,
      (paths.filter (asmSucceeds f a)).length +
        ((paths.filter (fetchFails f)).length + (paths.filter (asmFails f a)).length) =
        paths.length
  | [] => rfl
  | p :: rest => by
    have ih := loader_three_way_count f a rest
    cases hf : f p with
    | none =>
      simp [List.filter_cons, asmSucceeds, asmFails, fetchFails, hf]
      omega
    | some d =>
      cases ha : a { d with path := p } <;>
        · simp [List.filter_cons, asmSucceeds, asmFails, fetchFails, hf, ha]
          omega

theorem loader_succ_not_failed (f : String → Option GitHubFileInfo)
    (a : GitHubFileInfo → Bool) (p : String) (h : asmSucceeds f a p = true) :
    fetchFails f p = false ∧ asmFails f a p = false := by
  cases hf : f p with
  | none => simp [asmSucceeds, hf] at h
  | some d =>
    simp [asmSucceeds, hf] at h
    simp [asmFails, fetchFails, hf, h]

theorem loader_doc_path (fi : GitHubFileInfo) (rn b : String) :
    (create_document_from_file_info fi rn b).metadata.file_path = fi.path := rfl

theorem loader_ok_shape (f : String → Option GitHubFileInfo) (a : GitHubFileInfo → Bool)
    (repo_url : String) (paths : List String) (branch : String) (n : Nat)
    (hne : paths ≠ []) (docs : List Document) (failed : List String)
    (hok : load_files_from_github f a repo_url paths branch n = .ok (docs, failed)) :
    docs.map (fun d => d.metadata.file_path) = paths.filter (asmSucceeds f a) ∧
      failed = paths.filter (fetchFails f) ++ paths.filter (asmFails f a) := by
  obtain ⟨p, rest, rfl⟩ : ∃ p rest, paths = p :: rest := by
    cases paths with
    | nil => exact absurd rfl hne
    | cons p rest => exact ⟨p, rest, rfl⟩
  cases hp : parse_github_url repo_url with
  | error e =>
    rw [load_files_from_github, hp] at hok
    simp at hok
  | ok pr =>
    obtain ⟨o, r⟩ := pr
    rw [load_files_from_github, hp] at hok
    simp only [List.isEmpty_cons, if_false, Bool.false_eq_true] at hok
    rw [get_multiple_files] at hok
    rw [loader_convert_eq] at hok
    simp only [Except.ok.injEq, Prod.mk.injEq, List.nil_append] at hok
    obtain ⟨hdocs, hfailed⟩ := hok
    constructor
    · rw [← hdocs, List.map_map]
      have : ((fun d => d.metadata.file_path) ∘
          fun fi => create_document_from_file_info fi (o ++ "/" ++ r) branch) =
          fun fi : GitHubFileInfo => fi.path := by
        funext fi
        exact loader_doc_path fi (o ++ "/" ++ r) branch
      rw [this, loader_succ_paths]
    · rw [← hfailed, loader_fail_paths]
      rfl

/-- C1: for every non-empty input path list on which the fetch stage returns,
the produced documents plus the failed paths account for every input path
exactly once: the counts add up to the input count, and no path occurs both
as a produced document's `file_path` and in `failedPaths` (paths whose fetch
succeeded but whose document assembly raised land in `failedPaths`). -/
theorem fetch_accounts_every_path (f : String → Option GitHubFileInfo)
    (a : GitHubFileInfo → Bool) (repo_url : String) (paths : List String)
    (branch : String) (n : Nat) (hne : paths ≠ [])
    (docs : List Document) (failed : List String)
    (hok : load_files_from_github f a repo_url paths branch n = .ok (docs, failed)) :
    docs.length + failed.length = paths.length ∧
      listDisjoint (docs.map (fun d => d.metadata.file_path)) failed = true := by
  obtain ⟨hdocs, hfailed⟩ := loader_ok_shape f a repo_url paths branch n hne docs failed hok
  constructor
  · have hlen : docs.length = (paths.filter (asmSucceeds f a)).length := by
      rw [← hdocs, List.length_map]
    rw [hlen, hfailed, List.length_append]
    exact loader_three_way_count f a paths
  · rw [listDisjoint_iff]
    intro x hx y hy hxy
    subst hxy
    rw [hdocs] at hx
    rw [hfailed] at hy
    have hs : asmSucceeds f a x = true := (List.mem_filter.mp hx).2
    obtain ⟨hnf, hna⟩ := loader_succ_not_failed f a x hs
    rcases List.mem_append.mp hy with hy | hy
    · rw [(List.mem_filter.mp hy).2] at hnf
      exact Bool.true_eq_false.mp hnf
    · rw [(List.mem_filter.mp hy).2] at hna
      exact Bool.true_eq_false.mp hna

theorem fetch_accounts_every_path_witness :
    wDocs.length + wFailed.length = wPaths.length ∧
      listDisjoint (wDocs.map (fun d => d.metadata.file_path)) wFailed = true :=
  fetch_accounts_every_path wFetch wRaises "owner/repo" wPaths "main" 10 (by decide)
    wDocs wFailed (by rfl)

/-- C3 (amended): `load_files_from_github` raises if and only if the path
list is non-empty AND the repository identifier cannot be resolved (with an
empty path list it returns `([], [])` before the identifier is even checked).
When the identifier is unresolvable the outcome is independent of the
transport and assembly oracles, i.e. the check precedes any network call;
per-file fetch or assembly failures never raise — they are surfaced only as
`failedPaths` data. -/
theorem fetch_raises_iff_unresolvable_and_nonempty
    (f : String → Option GitHubFileInfo) (a : GitHubFileInfo → Bool)
    (repo_url : String) (paths : List String) (branch : String) (n : Nat) :
    isOkE (load_files_from_github f a repo_url paths branch n) =
      (paths.isEmpty || isOkE (parse_github_url repo_url)) ∧
    (isOkE (parse_github_url repo_url) = false →
      ∀ (f2 : String → Option GitHubFileInfo) (a2 : GitHubFileInfo → Bool),
        load_files_from_github f a repo_url paths branch n =
          load_files_from_github f2 a2 repo_url paths branch n) := by
  constructor
  · cases paths with
    | nil => simp [load_files_from_github, isOkE]
    | cons p rest =>
      cases hp : parse_github_url repo_url with
      | ok v =>
        obtain ⟨o, r⟩ := v
        simp [load_files_from_github, hp, isOkE]
      | error e => simp [load_files_from_github, hp, isOkE]
  · intro hbad f2 a2
    cases paths with
    | nil => rfl
    | cons p rest =>
      cases hp : parse_github_url repo_url with
      | ok v =>
        rw [hp] at hbad
        simp [isOkE] at hbad
      | error e => simp [load_files_from_github, hp]

theorem fetch_raises_iff_unresolvable_and_nonempty_witness :
    isOkE (load_files_from_github (fun _ => none) (fun _ => false) "x" ["a.md"] "main" 10) =
      ((["a.md"] : List String).isEmpty || isOkE (parse_github_url "x")) :=
  (fetch_raises_iff_unresolvable_and_nonempty (fun _ => none) (fun _ => false)
    "x" ["a.md"] "main" 10).1

/-- C3 counterexample: with an unresolvable repository identifier (`"x"`)
but an empty path list, `load_files_from_github` returns `([], [])` instead
of raising — the empty-input check precedes the identifier check — so the
claim "raises if and only if the repository identifier cannot be resolved"
fails in the if direction. -/
theorem fetch_no_raise_on_empty_paths_with_bad_repo :
    isOkE (parse_github_url "x") = false ∧
      load_files_from_github (fun _ => none) (fun _ => false) "x" [] "main" 10 =
        Except.ok ([], []) :=
  ⟨rfl, rfl⟩

/-- C9: for any repository identifier (even an unresolvable one) and any
per-path transport behaviour, calling the loader with an empty path list
returns `([], [])` and is not an error; the result is the same for every
transport oracle `f`, i.e. no network request is issued. -/
theorem fetch_empty_paths_returns_immediately (f : String → Option GitHubFileInfo)
    (a : GitHubFileInfo → Bool) (repo_url branch : String) (n : Nat) :
    load_files_from_github f a repo_url [] branch n = Except.ok ([], []) := rfl

/-- C10: web-URL derivation failure is non-fatal: when parsing the
repository name raises, the assembled document's web URL falls back to the
file's own retrieval URL (`file_info.url`) and the assembly still succeeds
(the assembler is a total function, so no other part of assembly can fail
because of URL derivation). -/
theorem assemble_web_url_fallback (fi : GitHubFileInfo) (repo_name branch : String)
    (h : isOkE (parse_github_url repo_name) = false) :
    (create_document_from_file_info fi repo_name branch).metadata.url = fi.url := by
  cases hp : parse_github_url repo_name with
  | ok v =>
    rw [hp] at h
    simp [isOkE] at h
  | error e => simp [create_document_from_file_info, hp]

theorem assemble_web_url_fallback_witness :
    (create_document_from_file_info wFallbackInfo "" "main").metadata.url = wFallbackInfo.url :=
  assemble_web_url_fallback wFallbackInfo "" "main" (by rfl)

/-- C6: the parser's example inputs, evaluated on the model: the bare
`owner/repo` shorthand and the fully-qualified URL parse to
`("owner", "repo")`, and the empty and three-segment inputs are rejected —
but `"github.com/owner/repo/"`, which both the specification and the
function's own docstring list as accepted, is REJECTED by the code: the bare
`github.com/...` form skips the `https://github.com/` normalization, so
`urlparse` keeps `github.com` inside the path, which then splits into three
segments instead of two.  The code contradicts its own documentation. -/
theorem parse_github_url_examples_and_bare_domain_bug :
    parse_github_url "owner/repo" = Except.ok ("owner", "repo") ∧
    parse_github_url "https://github.com/owner/repo" = Except.ok ("owner", "repo") ∧
    parse_github_url "github.com/owner/repo/" =
      Except.error ⟨"Invalid GitHub URL format: github.com/owner/repo"⟩ ∧
    parse_github_url "" = Except.error ⟨"Empty URL provided"⟩ ∧
    parse_github_url "not-a-valid-path-with/three/segments" =
      Except.error
        ⟨"Invalid GitHub URL format: https://github.com/not-a-valid-path-with/three/segments"⟩ :=
  ⟨rfl, rfl, rfl, rfl, rfl⟩

/-- Rendering only raises in the `complete` branch: for every snapshot whose
status is not `"complete"`, the renderer returns normally. -/
theorem formatSegments_ok_of_not_complete (d : ProgressDict)
    (h : d.status ≠ some "complete") : isOkE (formatSegments d) = true := by
  unfold formatSegments
  by_cases he : d = emptyProgress
  · simp [he, isOkE]
  · have hst : d.status.getD "unknown" ≠ "complete" := by
      cases hs : d.status with
      | none => simp
      | some s =>
        simp only [Option.getD_some]
        intro hc
        exact h (by rw [hs, hc])
    rw [if_neg he, if_neg hst]
    by_cases herr : d.status.getD "unknown" = "error" <;> simp [herr, isOkE]

/-- C7 counterexample: rendering a snapshot whose progress value is 150
displays the raw `150.0%` — the renderer does not clamp, so the observed
progress percent is NOT in [0, 100]. -/
theorem progress_percent_not_clamped :
    "📈 **Progress:** 150.0%\n" ∈ exceptGetD (formatSegments overPct) [] ∧
      ¬((150 : Int) ≤ 100) := by
  constructor
  · decide
  · decide

/-- C7 (amended): out-of-range progress values are not clamped anywhere.
What does hold: (a) a stored `ProgressState` snapshot always has progress in
[0, 100], because pydantic validation rejects out-of-range values at
construction rather than clamping; (b) rendering an out-of-range percent
does not crash — for every snapshot whose status is not `"complete"` the
renderer returns normally (the bar's repeat counts bottom out at zero) and
simply displays the raw value. -/
theorem progress_percent_guarantees :
    (∀ (st : ProcessingStatus) (msg : String) (p : ℚ) (ps : ProgressState),
        ProgressState.validate st msg p = some ps →
          0 ≤ ps.progress ∧ ps.progress ≤ 100) ∧
    (∀ d : ProgressDict, d.status ≠ some "complete" → isOkE (formatSegments d) = true) := by
  constructor
  · intro st msg p ps h
    by_cases hc : 0 ≤ p ∧ p ≤ 100
    · rw [ProgressState.validate, if_pos hc] at h
      simp only [Option.some.injEq] at h
      rw [← h]
      exact hc
    · rw [ProgressState.validate, if_neg hc] at h
      exact absurd h (by simp)
  · exact formatSegments_ok_of_not_complete

theorem progress_percent_guarantees_witness :
    (0 ≤ wPS.progress ∧ wPS.progress ≤ 100) ∧
      isOkE (formatSegments wNotComplete) = true :=
  ⟨progress_percent_guarantees.1 ProcessingStatus.loading "m" 50 wPS (by decide),
   progress_percent_guarantees.2 wNotComplete (by decide)⟩

/-- C8: rendering a Complete snapshot whose total elapsed time is 0 — the
source computes `documents_processed / total_time` with no zero guard
(`common.py` line 178), so it raises `ZeroDivisionError` instead of
reporting a throughput of 0. -/
theorem render_complete_zero_elapsed_raises :
    format_progress_display completeZeroTime =
      Except.error "ZeroDivisionError: division by zero" := rfl

/-- C2: whenever stage-1 fetching returns (the awaited load call does not
raise), the generator's final yield is a `loaded`-status snapshot — no
matter how many individual files failed, even all of them — and the snapshot
carries the produced documents and the failed-path list forward
(`loaded_documents`, `failed_files`) for stage 2, enabling the stage-2
button. -/
theorem stage1_return_reaches_loaded (repo_url : String) (files : List String)
    (cur : ProgressDict) (docs : List Document) (failed : List String)
    (elapsed : PyNum) (rn : String) (hne : files ≠ [])
    (hrn : parse_repo_name repo_url = some rn) :
    (start_file_loading_generator repo_url files cur (.ok (docs, failed)) elapsed).getLast? =
      some (completionProgress rn (files.length : Int) docs failed elapsed, true) ∧
    (completionProgress rn (files.length : Int) docs failed elapsed).status =
      some (ProcessingStatus.loaded.value) ∧
    (completionProgress rn (files.length : Int) docs failed elapsed).loaded_documents =
      some docs ∧
    (completionProgress rn (files.length : Int) docs failed elapsed).failed_files =
      some (FailedFilesVal.list failed) := by
  refine ⟨?_, rfl, rfl, rfl⟩
  obtain ⟨p, rest, rfl⟩ : ∃ p rest, files = p :: rest := by
    cases files with
    | nil => exact absurd rfl hne
    | cons p rest => exact ⟨p, rest, rfl⟩
  rw [start_file_loading_generator, hrn]
  rfl

theorem stage1_return_reaches_loaded_witness :
    (start_file_loading_generator "o/r" ["a.md"] emptyProgress
        (.ok ([], ["a.md"])) (PyNum.ofInt 2)).getLast? =
      some (completionProgress "o/r" ((["a.md"] : List String).length : Int) [] ["a.md"]
        (PyNum.ofInt 2), true) ∧
    (completionProgress "o/r" ((["a.md"] : List String).length : Int) [] ["a.md"]
        (PyNum.ofInt 2)).status = some (ProcessingStatus.loaded.value) ∧
    (completionProgress "o/r" ((["a.md"] : List String).length : Int) [] ["a.md"]
        (PyNum.ofInt 2)).loaded_documents = some ([] : List Document) ∧
    (completionProgress "o/r" ((["a.md"] : List String).length : Int) [] ["a.md"]
        (PyNum.ofInt 2)).failed_files = some (FailedFilesVal.list ["a.md"]) :=
  stage1_return_reaches_loaded "o/r" ["a.md"] emptyProgress [] ["a.md"]
    (PyNum.ofInt 2) "o/r" (by decide) (by rfl)

/-- C4: invoking stage 2 when the run is not in the Loaded state — the step
marker is not `"file_loading_complete"` (fresh/Idle run, stage 1 unfinished)
or there are zero loaded documents — returns an error-status progress
snapshot without raising, and the outcome is independent of the ingestion
collaborator (it is never invoked); the input snapshot itself is not
modified, so the caller's prior state remains usable for a stage-1 retry. -/
theorem render_pair_ok (errd : ProgressDict) (h : errd.status ≠ some "complete") :
    isOkE ((format_progress_display errd).map (fun disp => (errd, disp))) = true ∧
      (exceptGetD ((format_progress_display errd).map (fun disp => (errd, disp)))
        (emptyProgress, "")).1 = errd := by
  have hok := formatSegments_ok_of_not_complete errd h
  rw [format_progress_display]
  cases hfs : formatSegments errd with
  | ok segs => simp [isOkE, exceptGetD, Except.map]
  | error e =>
    rw [hfs] at hok
    simp [isOkE] at hok

theorem stage2_guard_returns_error_snapshot (cur : ProgressDict)
    (r : Except String Bool) (t : PyNum)
    (h : cur.step ≠ some "file_loading_complete" ∨
      (cur.loaded_documents.getD []).isEmpty = true) :
    isOkE (start_vector_ingestion cur r t) = true ∧
    (exceptGetD (start_vector_ingestion cur r t) (emptyProgress, "")).1.status =
      some (ProcessingStatus.error.value) ∧
    (∀ (r2 : Except String Bool) (t2 : PyNum),
      start_vector_ingestion cur r2 t2 = start_vector_ingestion cur r t) := by
  by_cases hstep : cur.step = some "file_loading_complete"
  · have hdocs : (cur.loaded_documents.getD []).isEmpty = true := by
      rcases h with h | h
      · exact absurd hstep h
      · exact h
    have heq : ∀ (r2 : Except String Bool) (t2 : PyNum),
        start_vector_ingestion cur r2 t2 =
          (format_progress_display
            { status := some (ProcessingStatus.error.value),
              message := some "❌ No documents available",
              progress := some (PyNum.ofInt 0),
              details := some "No documents found to process." }).map
            (fun disp =>
              ({ status := some (ProcessingStatus.error.value),
                 message := some "❌ No documents available",
                 progress := some (PyNum.ofInt 0),
                 details := some "No documents found to process." }, disp)) := by
      intro r2 t2
      rw [start_vector_ingestion, if_neg (by simp [hstep]), if_pos hdocs]
    obtain ⟨h1, h2⟩ := render_pair_ok
      { status := some (ProcessingStatus.error.value),
        message := some "❌ No documents available",
        progress := some (PyNum.ofInt 0),
        details := some "No documents found to process." } (by decide)
    refine ⟨?_, ?_, ?_⟩
    · rw [heq r t]
      exact h1
    · rw [heq r t, h2]
    · intro r2 t2
      rw [heq r2 t2, heq r t]
  · have heq : ∀ (r2 : Except String Bool) (t2 : PyNum),
        start_vector_ingestion cur r2 t2 =
          (format_progress_display
            { status := some (ProcessingStatus.error.value),
              message := some "❌ No documents to process",
              progress := some (PyNum.ofInt 0),
              details := some "Please load files first." }).map
            (fun disp =>
              ({ status := some (ProcessingStatus.error.value),
                 message := some "❌ No documents to process",
                 progress := some (PyNum.ofInt 0),
                 details := some "Please load files first." }, disp)) := by
      intro r2 t2
      rw [start_vector_ingestion, if_pos hstep]
    obtain ⟨h1, h2⟩ := render_pair_ok
      { status := some (ProcessingStatus.error.value),
        message := some "❌ No documents to process",
        progress := some (PyNum.ofInt 0),
        details := some "Please load files first." } (by decide)
    refine ⟨?_, ?_, ?_⟩
    · rw [heq r t]
      exact h1
    · rw [heq r t, h2]
    · intro r2 t2
      rw [heq r2 t2, heq r t]

theorem stage2_guard_returns_error_snapshot_witness :
    isOkE (start_vector_ingestion emptyProgress (Except.ok true) (PyNum.ofInt 1)) = true ∧
    (exceptGetD (start_vector_ingestion emptyProgress (Except.ok true) (PyNum.ofInt 1))
        (emptyProgress, "")).1.status = some (ProcessingStatus.error.value) ∧
    (∀ (r2 : Except String Bool) (t2 : PyNum),
      start_vector_ingestion emptyProgress r2 t2 =
        start_vector_ingestion emptyProgress (Except.ok true) (PyNum.ofInt 1)) :=
  stage2_guard_returns_error_snapshot emptyProgress (Except.ok true) (PyNum.ofInt 1)
    (Or.inl (by decide))

/-- C5: during a `fetchMany` call with bound `maxConcurrent = n`, every
reachable scheduling state has at most `n` retrievals in flight — further
requests wait until a slot frees. -/
theorem fetch_concurrency_bounded (n numPaths : Nat) (s : FetcherState)
    (h : FetchReachable n (initialFetcherState numPaths) s) : s.inFlight <= n := by
  induction h with
  | refl => exact Nat.zero_le n
  | step hr hstep ih =>
    cases hstep with
    | start w r d hlt => exact hlt
    | finish w r d => exact Nat.le_of_succ_le ih

/-- Witness: fetching 50 paths with `maxConcurrent = 5`; after five tasks
start, the bound still holds and a sixth cannot start. -/
theorem fetch_concurrency_bounded_witness :
    (⟨45, 5, 0⟩ : FetcherState).inFlight <= 5 :=
  fetch_concurrency_bounded 5 50 ⟨45, 5, 0⟩
    ((((((FetchReachable.refl).step (FetchStep.start 49 0 0 (by decide))).step
      (FetchStep.start 48 1 0 (by decide))).step
      (FetchStep.start 47 2 0 (by decide))).step
      (FetchStep.start 46 3 0 (by decide))).step
      (FetchStep.start 45 4 0 (by decide)))

end DocMcp
